import Mathlib

/-!
Verification of the ALEJO Unreal integration plugin: a shallow embedding of
the bridge-client protocol core (ALEJOSubsystem.cpp), the accessibility
profile codec (ALEJOAccessibilitySettings.cpp) and the contrast/color engine
(ALEJOUIHelper.cpp), with theorems settling the specification claims.

Modelling conventions:
- `FJsonObject` values are modelled by the inductive `Json` type below; a
  JSON object is an association list of key/value pairs.
- The `FJsonSerializer::Deserialize` parse step (Unreal library code, not
  part of this repository) is modelled by an `Option`: `none` stands for
  input that does not parse as a structured JSON object, `some o` for input
  that parses to the object `o`.
- Unреal `float` fields are modelled by `ℚ` (the profile code performs no
  arithmetic on them), color channels and the WCAG luminance/contrast
  computations by `ℝ`.
- Delegate broadcasts are modelled by explicit lists of emitted
  notifications; the WebSocket transport by a record carrying its
  connected flag, plus a ghost counter of sockets created so far, which
  lets theorems observe whether `Connect` opened a new transport.
-/

namespace ALEJO

/-- Model of the engine JSON value type (`FJsonValue`); an object is an
association list of field name / value pairs, mirroring `FJsonObject`. -/
inductive Json where
  | null : Json
  | bool : Bool → Json
  | num  : ℚ → Json
  | str  : String → Json
  | arr  : List Json → Json
  | obj  : List (String × Json) → Json

/-- Field lookup on a JSON object, as `FJsonObject` field access: the first
pair whose key matches. -/
def getField (k : String) : List (String × Json) → Option Json
  | [] => none
  | (k₂, v) :: rest => if k₂ == k then some v else getField k rest

/-- `FJsonObject::HasField`: the key is present (with a value of any type). -/
def hasField (k : String) (o : List (String × Json)) : Bool :=
  (getField k o).isSome

/-- `FJsonObject::TryGetStringField`: succeeds when the field is present and
holds a string value. -/
def tryGetStringField (k : String) (o : List (String × Json)) : Option String :=
  match getField k o with
  | some (Json.str s) => some s
  | _ => none

/-- `FJsonObject::TryGetBoolField`: succeeds when the field is present and
holds a boolean value. -/
def tryGetBoolField (k : String) (o : List (String × Json)) : Option Bool :=
  match getField k o with
  | some (Json.bool b) => some b
  | _ => none

/-- `FJsonObject::TryGetNumberField`: succeeds when the field is present and
holds a numeric value. -/
def tryGetNumberField (k : String) (o : List (String × Json)) : Option ℚ :=
  match getField k o with
  | some (Json.num q) => some q
  | _ => none

/-- `FJsonObject::GetObjectField`: yields the nested object when the field is
present and holds an object, and an invalid pointer (here `none`) otherwise. -/
def getObjectField (k : String) (o : List (String × Json)) : Option (List (String × Json)) :=
  match getField k o with
  | some (Json.obj fields) => some fields
  | _ => none

mutual
/-- Model of `FJsonSerializer::Serialize` with a `TJsonWriter`: renders a JSON
value to its wire-format string (modulo insignificant whitespace). -/
def serializeJson : Json → String
  | Json.null => "null"
  | Json.bool b => cond b "true" "false"
  | Json.num q => toString q
  | Json.str s => "\"" ++ s ++ "\""
  | Json.arr l => "[" ++ serializeArr l ++ "]"
  | Json.obj l => "\x7b" ++ serializeObj l ++ "\x7d"

/-- Renders the comma-separated elements of a JSON array. -/
def serializeArr : List Json → String
  | [] => ""
  | [j] => serializeJson j
  | j :: rest => serializeJson j ++ "," ++ serializeArr rest

/-- Renders the comma-separated key/value pairs of a JSON object. -/
def serializeObj : List (String × Json) → String
  | [] => ""
  | [(k, v)] => "\"" ++ k ++ "\":" ++ serializeJson v
  | (k, v) :: rest => "\"" ++ k ++ "\":" ++ serializeJson v ++ "," ++ serializeObj rest
end

/-- One observer notification broadcast by `UALEJOSubsystem`: each
constructor models one of the subsystem delegates. -/
inductive Notification where
  | textResult : String → Notification
  | voiceResult : String → Notification
  | alejoEvent : String → String → Notification
  | resourceModeChanged : String → Notification
  | connected : Notification
  | disconnected : Notification
  | error : String → Notification
deriving DecidableEq, Repr

/-- `UALEJOSubsystem::HandleWebSocketMessage`: decodes one inbound frame
(already run through the `ParseJSON` step, modelled by the `Option`) and
returns the notifications broadcast for it, in broadcast order. -/
def handleWebSocketMessage (parsed : Option (List (String × Json))) : List Notification :=
  match parsed with
  | none => [Notification.error "Invalid JSON message received"]
  | some o =>
    match tryGetStringField "type" o with
    | some eventType =>
      let dataObj := getObjectField "data" o
      let eventData : String :=
        match dataObj with
        | some d => serializeJson (Json.obj d)
        | none => (tryGetStringField "data" o).getD ""
      let base := [Notification.alejoEvent eventType eventData]
      if eventType == "resource.mode.changed" then
        match dataObj with
        | some d =>
          match tryGetStringField "mode" d with
          | some m => base ++ [Notification.resourceModeChanged m]
          | none => base
        | none => base
      else base
    | none =>
      if hasField "response" o then
        [Notification.textResult ((tryGetStringField "response" o).getD "")]
      else if hasField "command" o then
        [Notification.voiceResult ((tryGetStringField "response" o).getD "")]
      else if hasField "error" o then
        [Notification.error ((tryGetStringField "error" o).getD "")]
      else []

/-- The `UALEJOAccessibilitySettings` value object: the seventeen
accessibility-preference fields, floats modelled by `ℚ`. -/
structure AccessibilitySettings where
  bHighContrastMode : Bool
  fontScaleFactor : ℚ
  bColorBlindMode : Bool
  colorBlindnessType : String
  bScreenReaderEnabled : Bool
  bVisualAlternativesToAudio : Bool
  bSignLanguageEnabled : Bool
  signLanguagePreference : String
  bCaptionsEnabled : Bool
  captionScaleFactor : ℚ
  bHapticFeedbackEnabled : Bool
  inputHoldDuration : ℚ
  bSimplifiedGestureControls : Bool
  bSimplifiedLanguage : Bool
  bReducedMotion : Bool
  bFocusAssistance : Bool
  readingSpeedFactor : ℚ
deriving DecidableEq, Repr

/-- The `UALEJOAccessibilitySettings` constructor defaults. -/
def defaultSettings : AccessibilitySettings where
  bHighContrastMode := false
  fontScaleFactor := 1
  bColorBlindMode := false
  colorBlindnessType := "None"
  bScreenReaderEnabled := false
  bVisualAlternativesToAudio := false
  bSignLanguageEnabled := false
  signLanguagePreference := "ASL"
  bCaptionsEnabled := true
  captionScaleFactor := 1
  bHapticFeedbackEnabled := true
  inputHoldDuration := 3 / 10
  bSimplifiedGestureControls := false
  bSimplifiedLanguage := false
  bReducedMotion := false
  bFocusAssistance := false
  readingSpeedFactor := 1

/-- `UALEJOAccessibilitySettings::ToJsonString`, up to the final writer step:
the JSON object built by the seventeen `Set*Field` calls, in source order. -/
def toJsonObject (s : AccessibilitySettings) : List (String × Json) :=
  [("highContrastMode", Json.bool s.bHighContrastMode),
   ("fontScaleFactor", Json.num s.fontScaleFactor),
   ("colorBlindMode", Json.bool s.bColorBlindMode),
   ("colorBlindnessType", Json.str s.colorBlindnessType),
   ("screenReaderEnabled", Json.bool s.bScreenReaderEnabled),
   ("visualAlternativesToAudio", Json.bool s.bVisualAlternativesToAudio),
   ("signLanguageEnabled", Json.bool s.bSignLanguageEnabled),
   ("signLanguagePreference", Json.str s.signLanguagePreference),
   ("captionsEnabled", Json.bool s.bCaptionsEnabled),
   ("captionScaleFactor", Json.num s.captionScaleFactor),
   ("hapticFeedbackEnabled", Json.bool s.bHapticFeedbackEnabled),
   ("inputHoldDuration", Json.num s.inputHoldDuration),
   ("simplifiedGestureControls", Json.bool s.bSimplifiedGestureControls),
   ("simplifiedLanguage", Json.bool s.bSimplifiedLanguage),
   ("reducedMotion", Json.bool s.bReducedMotion),
   ("focusAssistance", Json.bool s.bFocusAssistance),
   ("readingSpeedFactor", Json.num s.readingSpeedFactor)]

/-- `UALEJOAccessibilitySettings::FromJsonString`: parse failure (`none`)
returns `false` leaving the object untouched; otherwise each field is
independently overwritten when its key is present with a matching type
(`TryGet*Field`) and kept at its prior value otherwise, returning `true`. -/
def fromJsonString (parsed : Option (List (String × Json)))
    (s : AccessibilitySettings) : Bool × AccessibilitySettings :=
  match parsed with
  | none => (false, s)
  | some o =>
    (true,
      { bHighContrastMode := (tryGetBoolField "highContrastMode" o).getD s.bHighContrastMode
        fontScaleFactor := (tryGetNumberField "fontScaleFactor" o).getD s.fontScaleFactor
        bColorBlindMode := (tryGetBoolField "colorBlindMode" o).getD s.bColorBlindMode
        colorBlindnessType := (tryGetStringField "colorBlindnessType" o).getD s.colorBlindnessType
        bScreenReaderEnabled := (tryGetBoolField "screenReaderEnabled" o).getD s.bScreenReaderEnabled
        bVisualAlternativesToAudio := (tryGetBoolField "visualAlternativesToAudio" o).getD s.bVisualAlternativesToAudio
        bSignLanguageEnabled := (tryGetBoolField "signLanguageEnabled" o).getD s.bSignLanguageEnabled
        signLanguagePreference := (tryGetStringField "signLanguagePreference" o).getD s.signLanguagePreference
        bCaptionsEnabled := (tryGetBoolField "captionsEnabled" o).getD s.bCaptionsEnabled
        captionScaleFactor := (tryGetNumberField "captionScaleFactor" o).getD s.captionScaleFactor
        bHapticFeedbackEnabled := (tryGetBoolField "hapticFeedbackEnabled" o).getD s.bHapticFeedbackEnabled
        inputHoldDuration := (tryGetNumberField "inputHoldDuration" o).getD s.inputHoldDuration
        bSimplifiedGestureControls := (tryGetBoolField "simplifiedGestureControls" o).getD s.bSimplifiedGestureControls
        bSimplifiedLanguage := (tryGetBoolField "simplifiedLanguage" o).getD s.bSimplifiedLanguage
        bReducedMotion := (tryGetBoolField "reducedMotion" o).getD s.bReducedMotion
        bFocusAssistance := (tryGetBoolField "focusAssistance" o).getD s.bFocusAssistance
        readingSpeedFactor := (tryGetNumberField "readingSpeedFactor" o).getD s.readingSpeedFactor })

/-- The declared ranges of the numeric profile fields, from the
`ClampMin`/`ClampMax` metadata in ALEJOAccessibilitySettings.h. -/
def ValidSettings (s : AccessibilitySettings) : Prop :=
  (1 / 2 ≤ s.fontScaleFactor ∧ s.fontScaleFactor ≤ 3) ∧
  (1 / 2 ≤ s.captionScaleFactor ∧ s.captionScaleFactor ≤ 3) ∧
  (1 / 10 ≤ s.inputHoldDuration ∧ s.inputHoldDuration ≤ 2) ∧
  (1 / 2 ≤ s.readingSpeedFactor ∧ s.readingSpeedFactor ≤ 2)

instance (s : AccessibilitySettings) : Decidable (ValidSettings s) := by
  unfold ValidSettings; infer_instance

/-- The transport handle (`IWebSocket`): only its connected flag is
observable to the subsystem logic. -/
structure WebSocket where
  isConnected : Bool
deriving DecidableEq, Repr

/-- The connection-owning part of `UALEJOSubsystem`: the (possibly absent)
WebSocket member, plus a ghost count of sockets created so far, which lets
theorems observe whether an operation opened a new transport. -/
structure SubsystemState where
  websocket : Option WebSocket
  socketsCreated : Nat
deriving DecidableEq, Repr

/-- `UALEJOSubsystem::IsConnected`: the socket handle is valid and reports
itself connected. -/
def isConnected (st : SubsystemState) : Bool :=
  match st.websocket with
  | some ws => ws.isConnected
  | none => false

/-- `UALEJOSubsystem::ConnectToWebSocket`: creates a fresh socket (not yet
open) and replaces the member handle with it. -/
def connectToWebSocket (st : SubsystemState) : SubsystemState :=
  { websocket := some { isConnected := false }
    socketsCreated := st.socketsCreated + 1 }

/-- `UALEJOSubsystem::Connect`: returns early when `IsConnected()` holds,
otherwise opens a new transport via `ConnectToWebSocket`. -/
def connect (st : SubsystemState) : SubsystemState :=
  if isConnected st then st else connectToWebSocket st

/-- The specification connection-state enumeration, as read off the code:
no socket member means `Disconnected`, a socket awaiting its opened callback
means `Connecting`, an open socket means `Connected`. -/
inductive ConnectionState where
  | Disconnected : ConnectionState
  | Connecting : ConnectionState
  | Connected : ConnectionState
deriving DecidableEq, Repr

/-- Maps a subsystem state to the specification state enumeration. -/
def connectionState (st : SubsystemState) : ConnectionState :=
  match st.websocket with
  | none => ConnectionState.Disconnected
  | some ws => if ws.isConnected then ConnectionState.Connected else ConnectionState.Connecting

/-- The `context` map argument rendered to a JSON object of string fields. -/
def encodeContext (ctx : List (String × String)) : List (String × Json) :=
  ctx.map (fun kv => (kv.1, Json.str kv.2))

/-- The outbound frame built by `ProcessText`: a `text` field, plus a
`context` object when the context map is nonempty. -/
def buildTextMessage (text : String) (ctx : List (String × String)) : Json :=
  if ctx.length > 0 then
    Json.obj [("text", Json.str text), ("context", Json.obj (encodeContext ctx))]
  else
    Json.obj [("text", Json.str text)]

/-- The outbound frame built by `ProcessVoiceCommand`: a `command` field,
plus a `context` object when the context map is nonempty. -/
def buildCommandMessage (command : String) (ctx : List (String × String)) : Json :=
  if ctx.length > 0 then
    Json.obj [("command", Json.str command), ("context", Json.obj (encodeContext ctx))]
  else
    Json.obj [("command", Json.str command)]

/-- Result of one outbound subsystem operation: the post-call state, the
error notifications broadcast, and the frames written to the transport. -/
structure SendOutcome where
  state : SubsystemState
  errors : List String
  writes : List String
deriving DecidableEq, Repr

/-- `UALEJOSubsystem::ProcessText`: when not connected, broadcasts one error
and drops the message; otherwise serializes and writes exactly one frame. -/
def processText (st : SubsystemState) (text : String)
    (ctx : List (String × String)) : SendOutcome :=
  if isConnected st then
    { state := st, errors := [], writes := [serializeJson (buildTextMessage text ctx)] }
  else
    { state := st, errors := ["Not connected to ALEJO bridge"], writes := [] }

/-- `UALEJOSubsystem::ProcessVoiceCommand`: when not connected, broadcasts
one error and drops the message; otherwise writes exactly one frame. -/
def processVoiceCommand (st : SubsystemState) (command : String)
    (ctx : List (String × String)) : SendOutcome :=
  if isConnected st then
    { state := st, errors := [], writes := [serializeJson (buildCommandMessage command ctx)] }
  else
    { state := st, errors := ["Not connected to ALEJO bridge"], writes := [] }

/-- `UALEJOSubsystem::UpdateAccessibilitySettings`: the guard
`!IsConnected() || !Settings` broadcasts one error and returns; otherwise
the settings JSON is written. `none` models a null settings pointer. -/
def updateAccessibilitySettings (st : SubsystemState)
    (settings : Option AccessibilitySettings) : SendOutcome :=
  match settings with
  | none => { state := st, errors := ["Not connected or invalid settings"], writes := [] }
  | some s =>
    if isConnected st then
      { state := st, errors := [], writes := [serializeJson (Json.obj (toJsonObject s))] }
    else
      { state := st, errors := ["Not connected or invalid settings"], writes := [] }

/-- `FLinearColor`: four real channels (alpha carried along, unused by the
luminance computation, as in the source). -/
structure LinearColor where
  r : ℝ
  g : ℝ
  b : ℝ
  a : ℝ

/-- The sRGB-to-linear channel transform used by `CalculateLuminance` inside
`UALEJOUIHelper::GetContrastRatio` (WCAG 2.0 definition). -/
noncomputable def srgbToLinear (c : ℝ) : ℝ :=
  if c ≤ 0.03928 then c / 12.92 else ((c + 0.055) / 1.055) ^ (2.4 : ℝ)

/-- The `CalculateLuminance` lambda of `UALEJOUIHelper::GetContrastRatio`. -/
noncomputable def calculateLuminance (c : LinearColor) : ℝ :=
  0.2126 * srgbToLinear c.r + 0.7152 * srgbToLinear c.g + 0.0722 * srgbToLinear c.b

/-- `UALEJOUIHelper::GetContrastRatio`: the WCAG contrast ratio of two
colors. -/
noncomputable def getContrastRatio (c1 c2 : LinearColor) : ℝ :=
  (max (calculateLuminance c1) (calculateLuminance c2) + 0.05) /
  (min (calculateLuminance c1) (calculateLuminance c2) + 0.05)

/-- `UALEJOUIHelper::GetAccessibleColorPair` (the non-null-settings path):
the fixed (background, foreground) lookup table keyed on
`bHighContrastMode`, `bColorBlindMode` and the interactive flag. -/
noncomputable def getAccessibleColorPair (s : AccessibilitySettings)
    (interactive : Bool) : LinearColor × LinearColor :=
  if s.bHighContrastMode then
    if interactive then (⟨0, 0, 0.8, 1⟩, ⟨1, 1, 1, 1⟩)
    else (⟨0, 0, 0, 1⟩, ⟨1, 1, 0, 1⟩)
  else if s.bColorBlindMode then
    if interactive then (⟨0, 0.4, 0.7, 1⟩, ⟨1, 1, 1, 1⟩)
    else (⟨0.2, 0.2, 0.2, 1⟩, ⟨0.95, 0.95, 0.95, 1⟩)
  else
    if interactive then (⟨0.2, 0.2, 0.8, 1⟩, ⟨1, 1, 1, 1⟩)
    else (⟨0.1, 0.1, 0.1, 1⟩, ⟨0.9, 0.9, 0.9, 1⟩)

theorem srgbToLinear_nonneg {c : ℝ} (h : 0 ≤ c) : 0 ≤ srgbToLinear c := by
  unfold srgbToLinear
  split
  · positivity
  · exact Real.rpow_nonneg (by positivity) _

theorem srgbToLinear_zero : srgbToLinear 0 = 0 := by
  unfold srgbToLinear
  norm_num

theorem srgbToLinear_one : srgbToLinear 1 = 1 := by
  unfold srgbToLinear
  rw [if_neg (by norm_num)]
  have hb : ((1 : ℝ) + 0.055) / 1.055 = 1 := by norm_num
  rw [hb, Real.one_rpow]

theorem srgbToLinear_08_le : srgbToLinear 0.8 ≤ 0.657 := by
  have hb0 : (0 : ℝ) < ((0.8 : ℝ) + 0.055) / 1.055 := by norm_num
  have hb1 : ((0.8 : ℝ) + 0.055) / 1.055 ≤ 1 := by norm_num
  have h24 : (((0.8 : ℝ) + 0.055) / 1.055) ^ (2.4 : ℝ) ≤
      (((0.8 : ℝ) + 0.055) / 1.055) ^ ((2 : ℕ) : ℝ) :=
    Real.rpow_le_rpow_of_exponent_ge hb0 hb1 (by norm_num)
  rw [Real.rpow_natCast] at h24
  unfold srgbToLinear
  rw [if_neg (by norm_num)]
  calc (((0.8 : ℝ) + 0.055) / 1.055) ^ (2.4 : ℝ)
      ≤ (((0.8 : ℝ) + 0.055) / 1.055) ^ (2 : ℕ) := h24
    _ ≤ 0.657 := by norm_num

theorem srgbToLinear_02_le : srgbToLinear 0.2 ≤ 0.0585 := by
  have hb0 : (0 : ℝ) < ((0.2 : ℝ) + 0.055) / 1.055 := by norm_num
  have hb1 : ((0.2 : ℝ) + 0.055) / 1.055 ≤ 1 := by norm_num
  have h24 : (((0.2 : ℝ) + 0.055) / 1.055) ^ (2.4 : ℝ) ≤
      (((0.2 : ℝ) + 0.055) / 1.055) ^ ((2 : ℕ) : ℝ) :=
    Real.rpow_le_rpow_of_exponent_ge hb0 hb1 (by norm_num)
  rw [Real.rpow_natCast] at h24
  unfold srgbToLinear
  rw [if_neg (by norm_num)]
  calc (((0.2 : ℝ) + 0.055) / 1.055) ^ (2.4 : ℝ)
      ≤ (((0.2 : ℝ) + 0.055) / 1.055) ^ (2 : ℕ) := h24
    _ ≤ 0.0585 := by norm_num

theorem srgbToLinear_01_le : srgbToLinear 0.1 ≤ 0.0216 := by
  have hb0 : (0 : ℝ) < ((0.1 : ℝ) + 0.055) / 1.055 := by norm_num
  have hb1 : ((0.1 : ℝ) + 0.055) / 1.055 ≤ 1 := by norm_num
  have h24 : (((0.1 : ℝ) + 0.055) / 1.055) ^ (2.4 : ℝ) ≤
      (((0.1 : ℝ) + 0.055) / 1.055) ^ ((2 : ℕ) : ℝ) :=
    Real.rpow_le_rpow_of_exponent_ge hb0 hb1 (by norm_num)
  rw [Real.rpow_natCast] at h24
  unfold srgbToLinear
  rw [if_neg (by norm_num)]
  calc (((0.1 : ℝ) + 0.055) / 1.055) ^ (2.4 : ℝ)
      ≤ (((0.1 : ℝ) + 0.055) / 1.055) ^ (2 : ℕ) := h24
    _ ≤ 0.0216 := by norm_num

theorem srgbToLinear_09_ge : 0.741 ≤ srgbToLinear 0.9 := by
  have hb0 : (0 : ℝ) < ((0.9 : ℝ) + 0.055) / 1.055 := by norm_num
  have hb1 : ((0.9 : ℝ) + 0.055) / 1.055 ≤ 1 := by norm_num
  have h24 : (((0.9 : ℝ) + 0.055) / 1.055) ^ ((3 : ℕ) : ℝ) ≤
      (((0.9 : ℝ) + 0.055) / 1.055) ^ (2.4 : ℝ) :=
    Real.rpow_le_rpow_of_exponent_ge hb0 hb1 (by norm_num)
  rw [Real.rpow_natCast] at h24
  unfold srgbToLinear
  rw [if_neg (by norm_num)]
  calc (0.741 : ℝ)
      ≤ (((0.9 : ℝ) + 0.055) / 1.055) ^ (3 : ℕ) := by norm_num
    _ ≤ (((0.9 : ℝ) + 0.055) / 1.055) ^ (2.4 : ℝ) := h24

theorem calculateLuminance_nonneg {c : LinearColor}
    (hr : 0 ≤ c.r) (hg : 0 ≤ c.g) (hb : 0 ≤ c.b) : 0 ≤ calculateLuminance c := by
  have h1 := srgbToLinear_nonneg hr
  have h2 := srgbToLinear_nonneg hg
  have h3 := srgbToLinear_nonneg hb
  unfold calculateLuminance
  linarith

theorem lum_black : calculateLuminance ⟨0, 0, 0, 1⟩ = 0 := by
  unfold calculateLuminance
  dsimp only
  rw [srgbToLinear_zero]
  ring

theorem lum_white : calculateLuminance ⟨1, 1, 1, 1⟩ = 1 := by
  unfold calculateLuminance
  dsimp only
  rw [srgbToLinear_one]
  norm_num

theorem lum_yellow : calculateLuminance ⟨1, 1, 0, 1⟩ = 0.9278 := by
  unfold calculateLuminance
  dsimp only
  rw [srgbToLinear_one, srgbToLinear_zero]
  norm_num

theorem lum_hc_blue_le : calculateLuminance ⟨0, 0, 0.8, 1⟩ ≤ 0.0475 := by
  unfold calculateLuminance
  dsimp only
  rw [srgbToLinear_zero]
  linarith [srgbToLinear_08_le]

theorem lum_hc_blue_nonneg : 0 ≤ calculateLuminance ⟨0, 0, 0.8, 1⟩ :=
  calculateLuminance_nonneg (by norm_num) (by norm_num) (by norm_num)

theorem lum_std_blue_le : calculateLuminance ⟨0.2, 0.2, 0.8, 1⟩ ≤ 0.1018 := by
  unfold calculateLuminance
  dsimp only
  linarith [srgbToLinear_02_le, srgbToLinear_08_le]

theorem lum_std_blue_nonneg : 0 ≤ calculateLuminance ⟨0.2, 0.2, 0.8, 1⟩ :=
  calculateLuminance_nonneg (by norm_num) (by norm_num) (by norm_num)

theorem lum_gray01_le : calculateLuminance ⟨0.1, 0.1, 0.1, 1⟩ ≤ 0.0216 := by
  unfold calculateLuminance
  dsimp only
  linarith [srgbToLinear_01_le, srgbToLinear_nonneg (by norm_num : (0 : ℝ) ≤ 0.1)]

theorem lum_gray01_nonneg : 0 ≤ calculateLuminance ⟨0.1, 0.1, 0.1, 1⟩ :=
  calculateLuminance_nonneg (by norm_num) (by norm_num) (by norm_num)

theorem lum_gray09_ge : 0.741 ≤ calculateLuminance ⟨0.9, 0.9, 0.9, 1⟩ := by
  unfold calculateLuminance
  dsimp only
  linarith [srgbToLinear_09_ge]

theorem ratio_ge {lo hi q : ℝ} (h0 : 0 ≤ lo) (hle : lo ≤ hi)
    (h : q * (lo + 0.05) ≤ hi + 0.05) :
    q ≤ (max lo hi + 0.05) / (min lo hi + 0.05) := by
  rw [max_eq_right hle, min_eq_left hle, le_div_iff₀ (by linarith)]
  linarith

theorem contrast_hc_interactive :
    7 ≤ getContrastRatio ⟨0, 0, 0.8, 1⟩ ⟨1, 1, 1, 1⟩ := by
  unfold getContrastRatio
  rw [lum_white]
  exact ratio_ge lum_hc_blue_nonneg (by linarith [lum_hc_blue_le])
    (by linarith [lum_hc_blue_le])

theorem contrast_hc_noninteractive :
    7 ≤ getContrastRatio ⟨0, 0, 0, 1⟩ ⟨1, 1, 0, 1⟩ := by
  unfold getContrastRatio
  rw [lum_black, lum_yellow]
  exact ratio_ge le_rfl (by norm_num) (by norm_num)

theorem contrast_std_interactive :
    4.5 ≤ getContrastRatio ⟨0.2, 0.2, 0.8, 1⟩ ⟨1, 1, 1, 1⟩ := by
  unfold getContrastRatio
  rw [lum_white]
  exact ratio_ge lum_std_blue_nonneg (by linarith [lum_std_blue_le])
    (by linarith [lum_std_blue_le])

theorem contrast_std_noninteractive :
    4.5 ≤ getContrastRatio ⟨0.1, 0.1, 0.1, 1⟩ ⟨0.9, 0.9, 0.9, 1⟩ := by
  unfold getContrastRatio
  exact ratio_ge lum_gray01_nonneg (by linarith [lum_gray01_le, lum_gray09_ge])
    (by linarith [lum_gray01_le, lum_gray09_ge])

theorem getField_eq_none {k : String} {o : List (String × Json)}
    (h : hasField k o = false) : getField k o = none := by
  unfold hasField at h
  cases hg : getField k o with
  | none => rfl
  | some v => rw [hg] at h; simp at h

/-- Claim C1, counterexample: the frame with both a `command` and a
`response` key (and no `type` key) is dispatched as a text result, not as a
voice result — `HandleWebSocketMessage` tests `response` before `command`. -/
theorem c1_counterexample :
    handleWebSocketMessage
        (some [("response", Json.str "hi"), ("command", Json.str "go")]) =
      [Notification.textResult "hi"] ∧
    Notification.voiceResult "hi" ∉
      handleWebSocketMessage
        (some [("response", Json.str "hi"), ("command", Json.str "go")]) := by
  refine ⟨rfl, ?_⟩
  decide

/-- Claim C1 (amended): for every inbound frame that is a valid JSON object
with no `type` key, a `command` key and a string-valued `response` key,
decoding classifies it as a TEXT result (the `response` check precedes the
`command` check), dispatching exactly one text-result notification carrying
the `response` value and no voice-result notification. -/
theorem c1_amended_theorem (o : List (String × Json)) (s : String)
    (htype : hasField "type" o = false)
    (_hcmd : hasField "command" o = true)
    (hresp : getField "response" o = some (Json.str s)) :
    handleWebSocketMessage (some o) = [Notification.textResult s] := by
  have ht : tryGetStringField "type" o = none := by
    unfold tryGetStringField
    rw [getField_eq_none htype]
  have hr : hasField "response" o = true := by
    unfold hasField
    rw [hresp]
    rfl
  have hrs : tryGetStringField "response" o = some s := by
    unfold tryGetStringField
    rw [hresp]
  simp only [handleWebSocketMessage]
  rw [ht]
  simp [hr, hrs]

/-- Witness for C1 (amended) at the frame of the counterexample. -/
theorem c1_witness :
    hasField "type" [("response", Json.str "hi"), ("command", Json.str "go")] = false ∧
    hasField "command" [("response", Json.str "hi"), ("command", Json.str "go")] = true ∧
    getField "response" [("response", Json.str "hi"), ("command", Json.str "go")] =
      some (Json.str "hi") ∧
    handleWebSocketMessage
        (some [("response", Json.str "hi"), ("command", Json.str "go")]) =
      [Notification.textResult "hi"] :=
  ⟨rfl, rfl, rfl, c1_amended_theorem _ "hi" rfl rfl rfl⟩

/-- Claim C2, counterexample: in the `Connecting` state (socket created but
its opened callback not yet fired) `Connect` is NOT a no-op: `IsConnected()`
is still false, so a second transport is created. -/
theorem c2_counterexample :
    connectionState ⟨some ⟨false⟩, 1⟩ ≠ ConnectionState.Disconnected ∧
    connect ⟨some ⟨false⟩, 1⟩ ≠ (⟨some ⟨false⟩, 1⟩ : SubsystemState) ∧
    (connect ⟨some ⟨false⟩, 1⟩).socketsCreated = 2 := by
  refine ⟨?_, ?_, rfl⟩ <;> decide

/-- Claim C2 (amended): calling `Connect` while `Connected` is a no-op (no
new transport is opened), but calling it while `Connecting` opens a fresh
transport and replaces the socket handle — the guard only checks
`IsConnected()`, not the connecting phase. -/
theorem c2_amended_theorem :
    (∀ st : SubsystemState,
      connectionState st = ConnectionState.Connected → connect st = st) ∧
    (∀ st : SubsystemState,
      connectionState st = ConnectionState.Connecting →
        connect st = connectToWebSocket st ∧
        (connect st).socketsCreated = st.socketsCreated + 1) := by
  constructor
  · rintro ⟨ws, n⟩ h
    rcases ws with _ | w
    · simp [connectionState] at h
    · by_cases hb : w.isConnected = true
      · simp [connect, isConnected, hb]
      · simp [connectionState, hb] at h
  · rintro ⟨ws, n⟩ h
    rcases ws with _ | w
    · simp [connectionState] at h
    · by_cases hb : w.isConnected = true
      · simp [connectionState, hb] at h
      · simp only [Bool.not_eq_true] at hb
        constructor
        · simp [connect, isConnected, hb]
        · simp [connect, isConnected, hb, connectToWebSocket]

/-- Witness for C2 (amended) at a connected state. -/
theorem c2_witness :
    connectionState ⟨some ⟨true⟩, 3⟩ = ConnectionState.Connected ∧
    connect ⟨some ⟨true⟩, 3⟩ = (⟨some ⟨true⟩, 3⟩ : SubsystemState) :=
  ⟨rfl, c2_amended_theorem.1 ⟨some ⟨true⟩, 3⟩ rfl⟩

/-- Claim C3, counterexample: `FromJsonString` applies no clamping — the
payload `fontScaleFactor = 100` is stored verbatim, leaving the field far
outside its declared [0.5, 3.0] range while the call reports success. -/
theorem c3_counterexample :
    (fromJsonString (some [("fontScaleFactor", Json.num 100)]) defaultSettings).1 = true ∧
    (fromJsonString (some [("fontScaleFactor", Json.num 100)])
        defaultSettings).2.fontScaleFactor = 100 ∧
    ¬ ((fromJsonString (some [("fontScaleFactor", Json.num 100)])
        defaultSettings).2.fontScaleFactor ≤ 3) := by
  refine ⟨rfl, rfl, ?_⟩
  decide

/-- Claim C3 (amended): deserialization stores numeric payload values
verbatim, with no clamping to the declared ranges — after a successful
`FromJsonString`, each numeric field equals the payload's number whenever
the key is present with a numeric value (so it lies in the declared range
only if the payload value does). -/
theorem c3_amended_theorem (s : AccessibilitySettings)
    (o : List (String × Json)) (q : ℚ) :
    (getField "fontScaleFactor" o = some (Json.num q) →
      (fromJsonString (some o) s).2.fontScaleFactor = q) ∧
    (getField "captionScaleFactor" o = some (Json.num q) →
      (fromJsonString (some o) s).2.captionScaleFactor = q) ∧
    (getField "inputHoldDuration" o = some (Json.num q) →
      (fromJsonString (some o) s).2.inputHoldDuration = q) ∧
    (getField "readingSpeedFactor" o = some (Json.num q) →
      (fromJsonString (some o) s).2.readingSpeedFactor = q) := by
  refine ⟨fun h => ?_, fun h => ?_, fun h => ?_, fun h => ?_⟩ <;>
    simp [fromJsonString, tryGetNumberField, h]

/-- Witness for C3 (amended) at the counterexample payload. -/
theorem c3_witness :
    getField "fontScaleFactor" [("fontScaleFactor", Json.num 100)] =
      some (Json.num 100) ∧
    (fromJsonString (some [("fontScaleFactor", Json.num 100)])
        defaultSettings).2.fontScaleFactor = 100 :=
  ⟨rfl, (c3_amended_theorem defaultSettings _ 100).1 rfl⟩

/-- Claim C4: deserializing the serialization of any valid profile yields a
profile equal to it in every field (round-trip law), regardless of the prior
state of the object deserialized into. -/
theorem c4_roundtrip (prior p : AccessibilitySettings)
    (_hvalid : ValidSettings p) :
    fromJsonString (some (toJsonObject p)) prior = (true, p) := rfl

/-- Witness for C4 at the default profile. -/
theorem c4_witness :
    ValidSettings defaultSettings ∧
    fromJsonString (some (toJsonObject defaultSettings)) defaultSettings =
      (true, defaultSettings) :=
  ⟨by norm_num [ValidSettings, defaultSettings],
   c4_roundtrip defaultSettings defaultSettings
     (by norm_num [ValidSettings, defaultSettings])⟩

/-- Claim C5: `FromJsonString` on unparseable input returns false and leaves
every field at its pre-call value; on any parseable object it returns true,
and every field whose key is missing keeps its pre-call value rather than
being reset to a default. -/
theorem c5_fromwire_missing_keys :
    (∀ s : AccessibilitySettings, fromJsonString none s = (false, s)) ∧
    (∀ (s : AccessibilitySettings) (o : List (String × Json)),
      (fromJsonString (some o) s).1 = true) ∧
    (∀ (s : AccessibilitySettings) (o : List (String × Json)),
      (hasField "highContrastMode" o = false →
        (fromJsonString (some o) s).2.bHighContrastMode = s.bHighContrastMode) ∧
      (hasField "fontScaleFactor" o = false →
        (fromJsonString (some o) s).2.fontScaleFactor = s.fontScaleFactor) ∧
      (hasField "colorBlindMode" o = false →
        (fromJsonString (some o) s).2.bColorBlindMode = s.bColorBlindMode) ∧
      (hasField "colorBlindnessType" o = false →
        (fromJsonString (some o) s).2.colorBlindnessType = s.colorBlindnessType) ∧
      (hasField "screenReaderEnabled" o = false →
        (fromJsonString (some o) s).2.bScreenReaderEnabled = s.bScreenReaderEnabled) ∧
      (hasField "visualAlternativesToAudio" o = false →
        (fromJsonString (some o) s).2.bVisualAlternativesToAudio = s.bVisualAlternativesToAudio) ∧
      (hasField "signLanguageEnabled" o = false →
        (fromJsonString (some o) s).2.bSignLanguageEnabled = s.bSignLanguageEnabled) ∧
      (hasField "signLanguagePreference" o = false →
        (fromJsonString (some o) s).2.signLanguagePreference = s.signLanguagePreference) ∧
      (hasField "captionsEnabled" o = false →
        (fromJsonString (some o) s).2.bCaptionsEnabled = s.bCaptionsEnabled) ∧
      (hasField "captionScaleFactor" o = false →
        (fromJsonString (some o) s).2.captionScaleFactor = s.captionScaleFactor) ∧
      (hasField "hapticFeedbackEnabled" o = false →
        (fromJsonString (some o) s).2.bHapticFeedbackEnabled = s.bHapticFeedbackEnabled) ∧
      (hasField "inputHoldDuration" o = false →
        (fromJsonString (some o) s).2.inputHoldDuration = s.inputHoldDuration) ∧
      (hasField "simplifiedGestureControls" o = false →
        (fromJsonString (some o) s).2.bSimplifiedGestureControls = s.bSimplifiedGestureControls) ∧
      (hasField "simplifiedLanguage" o = false →
        (fromJsonString (some o) s).2.bSimplifiedLanguage = s.bSimplifiedLanguage) ∧
      (hasField "reducedMotion" o = false →
        (fromJsonString (some o) s).2.bReducedMotion = s.bReducedMotion) ∧
      (hasField "focusAssistance" o = false →
        (fromJsonString (some o) s).2.bFocusAssistance = s.bFocusAssistance) ∧
      (hasField "readingSpeedFactor" o = false →
        (fromJsonString (some o) s).2.readingSpeedFactor = s.readingSpeedFactor)) := by
  refine ⟨fun s => rfl, fun s o => rfl, fun s o => ?_⟩
  refine ⟨fun h => ?_, fun h => ?_, fun h => ?_, fun h => ?_, fun h => ?_, fun h => ?_,
    fun h => ?_, fun h => ?_, fun h => ?_, fun h => ?_, fun h => ?_, fun h => ?_,
    fun h => ?_, fun h => ?_, fun h => ?_, fun h => ?_, fun h => ?_⟩ <;>
    simp [fromJsonString, tryGetBoolField, tryGetNumberField, tryGetStringField,
      getField_eq_none h]

/-- Witness for C5: unparseable input, and the empty object (all keys
missing), against the default profile. -/
theorem c5_witness :
    fromJsonString none defaultSettings = (false, defaultSettings) ∧
    (fromJsonString (some []) defaultSettings).1 = true ∧
    hasField "highContrastMode" ([] : List (String × Json)) = false ∧
    (fromJsonString (some []) defaultSettings).2.bHighContrastMode =
      defaultSettings.bHighContrastMode :=
  ⟨c5_fromwire_missing_keys.1 defaultSettings,
   c5_fromwire_missing_keys.2.1 defaultSettings [],
   rfl,
   (c5_fromwire_missing_keys.2.2 defaultSettings []).1 rfl⟩

/-- Claim C6: `ProcessText` and `ProcessVoiceCommand` while not connected
each broadcast exactly one not-connected error, write nothing to the
transport, drop the message without queuing, and leave the state unchanged. -/
theorem c6_send_not_connected (st : SubsystemState) (text command : String)
    (ctx : List (String × String)) (h : isConnected st = false) :
    processText st text ctx =
      { state := st, errors := ["Not connected to ALEJO bridge"], writes := [] } ∧
    processVoiceCommand st command ctx =
      { state := st, errors := ["Not connected to ALEJO bridge"], writes := [] } := by
  constructor <;> simp [processText, processVoiceCommand, h]

/-- Witness for C6 at a disconnected state. -/
theorem c6_witness :
    isConnected ⟨none, 0⟩ = false ∧
    processText ⟨none, 0⟩ "hello" [] =
      { state := ⟨none, 0⟩, errors := ["Not connected to ALEJO bridge"],
        writes := [] } :=
  ⟨rfl, (c6_send_not_connected ⟨none, 0⟩ "hello" "go" [] rfl).1⟩

/-- Claim C7: every high-contrast color pair achieves contrast ratio at
least 7.0 and every all-flags-off pair at least 4.5, as computed by the
engine's own `GetContrastRatio`; and `bHighContrastMode` takes priority over
`bColorBlindMode` when both are set. -/
theorem c7_color_pair_contrast (s : AccessibilitySettings) (interactive : Bool) :
    (s.bHighContrastMode = true →
      7 ≤ getContrastRatio (getAccessibleColorPair s interactive).1
        (getAccessibleColorPair s interactive).2) ∧
    (s.bHighContrastMode = false → s.bColorBlindMode = false →
      4.5 ≤ getContrastRatio (getAccessibleColorPair s interactive).1
        (getAccessibleColorPair s interactive).2) ∧
    (s.bHighContrastMode = true →
      getAccessibleColorPair s interactive =
        getAccessibleColorPair { s with bColorBlindMode := false } interactive) := by
  refine ⟨?_, ?_, ?_⟩
  · intro h
    cases interactive
    · simpa [getAccessibleColorPair, h] using contrast_hc_noninteractive
    · simpa [getAccessibleColorPair, h] using contrast_hc_interactive
  · intro h1 h2
    cases interactive
    · simpa [getAccessibleColorPair, h1, h2] using contrast_std_noninteractive
    · simpa [getAccessibleColorPair, h1, h2] using contrast_std_interactive
  · intro h
    cases interactive <;> simp [getAccessibleColorPair, h]

/-- Witness for C7 at the default profile with high-contrast mode on. -/
theorem c7_witness :
    ({ defaultSettings with bHighContrastMode := true } :
      AccessibilitySettings).bHighContrastMode = true ∧
    7 ≤ getContrastRatio
        (getAccessibleColorPair { defaultSettings with bHighContrastMode := true } false).1
        (getAccessibleColorPair { defaultSettings with bHighContrastMode := true } false).2 :=
  ⟨rfl, (c7_color_pair_contrast
      { defaultSettings with bHighContrastMode := true } false).1 rfl⟩

/-- Claim C8: the engine contrast ratio satisfies `ratio(c, c) = 1` for every
color with nonnegative channels, is symmetric in its two arguments, and maps
(black, white) to a value within 0.1 of 21, with luminance following the WCAG
sRGB-to-linear formula with coefficients 0.2126, 0.7152, 0.0722. -/
theorem c8_contrast_algebra :
    (∀ c : LinearColor, 0 ≤ c.r → 0 ≤ c.g → 0 ≤ c.b →
      getContrastRatio c c = 1) ∧
    (∀ c1 c2 : LinearColor, getContrastRatio c1 c2 = getContrastRatio c2 c1) ∧
    |getContrastRatio ⟨0, 0, 0, 1⟩ ⟨1, 1, 1, 1⟩ - 21| ≤ 0.1 := by
  refine ⟨?_, ?_, ?_⟩
  · intro c hr hg hb
    have h := calculateLuminance_nonneg hr hg hb
    unfold getContrastRatio
    rw [max_self, min_self]
    exact div_self (by linarith)
  · intro c1 c2
    unfold getContrastRatio
    rw [max_comm, min_comm]
  · unfold getContrastRatio
    rw [lum_black, lum_white,
      show max (0 : ℝ) 1 = 1 from max_eq_right zero_le_one,
      show min (0 : ℝ) 1 = 0 from min_eq_left zero_le_one]
    norm_num

/-- Witness for C8 at black. -/
theorem c8_witness :
    (0 : ℝ) ≤ (⟨0, 0, 0, 1⟩ : LinearColor).r ∧
    getContrastRatio ⟨0, 0, 0, 1⟩ ⟨0, 0, 0, 1⟩ = 1 :=
  ⟨le_rfl, c8_contrast_algebra.1 ⟨0, 0, 0, 1⟩ le_rfl le_rfl le_rfl⟩

/-- Claim C9: decoding the frame with type `resource.mode.changed` and data
object with mode `low` dispatches both the generic event notification (whose
data payload is the data object re-serialized to its wire-format string) and
the resource-mode-changed notification carrying `low`. -/
theorem c9_resource_mode_decode :
    handleWebSocketMessage
        (some [("type", Json.str "resource.mode.changed"),
               ("data", Json.obj [("mode", Json.str "low")])]) =
      [Notification.alejoEvent "resource.mode.changed"
         (serializeJson (Json.obj [("mode", Json.str "low")])),
       Notification.resourceModeChanged "low"] ∧
    serializeJson (Json.obj [("mode", Json.str "low")]) =
      "\x7b\"mode\":\"low\"\x7d" :=
  ⟨rfl, rfl⟩

/-- Claim C10: `UpdateAccessibilitySettings` with a null settings pointer
broadcasts exactly one error notification, writes nothing to the transport
and leaves the state unchanged, regardless of connection state — the guard
`!IsConnected() || !Settings` fires even while connected. -/
theorem c10_null_settings (st : SubsystemState) :
    updateAccessibilitySettings st none =
      { state := st, errors := ["Not connected or invalid settings"],
        writes := [] } := rfl

end ALEJO
